import Mathlib

/-!
Verification of the WDT `Throttler` (dual-rate limiter: average-rate regulator
plus token-bucket peak limiter), shallowly embedded from `src/Throttler.h` and
its specification. The repository ships only the header (declarations and doc
comments); the method bodies are modelled from the specification text, with
quantities in exact rational arithmetic (time points in seconds, the log
interval in integral milliseconds as in the `int64_t` field).
-/

/-- Modelled from the spec: the `Throttler` data model (§3) and the private
fields declared in `src/Throttler.h` lines 124-152. The C++ field
`bytesTokenBucket_` is an `int64_t`, but the spec's algorithm (§4.3) is stated
in real arithmetic, so it is embedded as a rational. Timestamps are rationals
counting seconds. The extra ghost field `emitCount` counts the periodic
diagnostic emissions of §4.5 (the C++ writes a log line; the embedding counts
the emissions so their cadence can be stated). -/
structure Throttler where
  startTime_ : ℚ
  lastLogTime_ : ℚ
  instantProgress_ : ℚ
  bytesProgress_ : ℚ
  lastFillTime_ : ℚ
  bytesTokenBucket_ : ℚ
  refCount_ : ℤ
  avgRateBytesPerSec_ : ℚ
  bytesTokenBucketLimit_ : ℚ
  bucketRateBytesPerSec_ : ℚ
  throttlerLogTimeMillis_ : ℤ
  emitCount : ℕ
  deriving DecidableEq, Repr

/-- Modelled from the spec: `configureOptions` (§4.1); the method body is not
in `src/`. If `avgRate ≤ 0` throttling is disabled entirely (both average and
peak are zeroed). Otherwise a peak rate that is unset or below the average is
raised to a multiple of the average (the multiple is chosen as 1.2, the
conventional value; the spec only requires peak ≥ average), and a bucket limit
that is unset (`≤ 0`) is auto-derived as twice the bytes sent in a quarter
second at the (updated) peak rate, matching the header doc on lines 46-49. -/
def configureOptions (avgRateBytesPerSec peakRateBytesPerSec bucketLimitBytes : ℚ) :
    ℚ × ℚ × ℚ :=
  if avgRateBytesPerSec ≤ 0 then
    (avgRateBytesPerSec, 0, 0)
  else
    let peak := if peakRateBytesPerSec < avgRateBytesPerSec
      then (6 / 5 : ℚ) * avgRateBytesPerSec else peakRateBytesPerSec
    let lim := if bucketLimitBytes ≤ 0 then 2 * peak * (1 / 4) else bucketLimitBytes
    (avgRateBytesPerSec, peak, lim)

/-- Modelled from the spec: the `Throttler` constructor; the body is not in
`src/`. Per the header doc (lines 46-49) a non-positive bucket limit is auto
configured to twice the data sent in a quarter second at the peak rate. The
C++ leaves the token count uninitialized until the first registration; the
embedding starts the bucket full, matching the 0→1 registration reset (§4.6).
`refCount_` starts at 0 (§3 lifecycle). `now` stands for the construction
time. -/
def Throttler.init (avgRateBytesPerSec peakRateBytesPerSec bucketLimitBytes : ℚ)
    (throttlerLogTimeMillis : ℤ) (now : ℚ) : Throttler :=
  let lim := if 0 < bucketLimitBytes then bucketLimitBytes
    else 2 * peakRateBytesPerSec * (1 / 4)
  { startTime_ := now
    lastLogTime_ := now
    instantProgress_ := 0
    bytesProgress_ := 0
    lastFillTime_ := now
    bytesTokenBucket_ := lim
    refCount_ := 0
    avgRateBytesPerSec_ := avgRateBytesPerSec
    bytesTokenBucketLimit_ := lim
    bucketRateBytesPerSec_ := peakRateBytesPerSec
    throttlerLogTimeMillis_ := throttlerLogTimeMillis
    emitCount := 0 }

/-- Construction without the last argument: `src/Throttler.h` line 52 declares
the constructor with default argument `throttlerLogTimeMillis = 0`. -/
def Throttler.initDefault (avgRateBytesPerSec peakRateBytesPerSec bucketLimitBytes : ℚ)
    (now : ℚ) : Throttler :=
  Throttler.init avgRateBytesPerSec peakRateBytesPerSec bucketLimitBytes 0 now

/-- Modelled from the spec: `averageThrottler` (§4.2); the body is not in
`src/`. A negative elapsed duration is treated as 0 (§4.2 edge case, §7 clock
anomalies). -/
def Throttler.averageThrottler (s : Throttler) (now : ℚ) : ℚ :=
  let elapsedSeconds := max 0 (now - s.startTime_)
  if s.avgRateBytesPerSec_ ≤ 0 then 0
  else
    let expectedProgress := s.avgRateBytesPerSec_ * elapsedSeconds
    if s.bytesProgress_ ≤ expectedProgress then 0
    else (s.bytesProgress_ - expectedProgress) / s.avgRateBytesPerSec_

/-- Modelled from the spec: the refill step of `calculateSleep` (§4.3 step 2):
tokens are added at `rate` for the elapsed duration, capped at the bucket
limit. -/
def refillBucket (bucket rate lim elapsed : ℚ) : ℚ :=
  min (bucket + rate * elapsed) lim

/-- Modelled from the spec: `printPeriodicLogs` (§4.5); the body is not in
`src/`. When periodic logging is enabled (`throttlerLogTimeMillis_ > 0`) and
at least that many milliseconds have passed since the last emission, one
observation is emitted (counted in `emitCount`), then `instantProgress_` is
reset to 0 and `lastLogTime_` to `now`; otherwise the state is unchanged. -/
def Throttler.printPeriodicLogs (s : Throttler) (now : ℚ) : Throttler :=
  if 0 < s.throttlerLogTimeMillis_ ∧
      (s.throttlerLogTimeMillis_ : ℚ) ≤ (now - s.lastLogTime_) * 1000 then
    { s with emitCount := s.emitCount + 1, instantProgress_ := 0, lastLogTime_ := now }
  else s

/-- Modelled from the spec: `calculateSleep` (§4.3); the body is not in
`src/`. Steps: (1) compute the delta progress, record the new cumulative
progress and accumulate the instant progress; (2) refill the bucket for the
elapsed time since the last fill (negative elapsed clamped to 0 per §7),
capped at the limit; (3) consume the delta (the count may go negative);
(4) peak-imposed sleep is 0 for a non-negative bucket, else the deficit over
the refill rate; (5) the result is the max of that and the average regulator;
(6) the periodic logger runs as a side effect. Returns the sleep in seconds
together with the updated state. -/
def Throttler.calculateSleep (s : Throttler) (bytesTotalProgress now : ℚ) :
    ℚ × Throttler :=
  let deltaProgress := bytesTotalProgress - s.bytesProgress_
  let s1 := { s with bytesProgress_ := bytesTotalProgress,
                     instantProgress_ := s.instantProgress_ + deltaProgress }
  let elapsedSinceFill := max 0 (now - s1.lastFillTime_)
  let tokens := refillBucket s1.bytesTokenBucket_ s1.bucketRateBytesPerSec_
      s1.bytesTokenBucketLimit_ elapsedSinceFill - deltaProgress
  let s2 := { s1 with lastFillTime_ := now, bytesTokenBucket_ := tokens }
  let peakSleep := if 0 ≤ tokens then 0 else (-tokens) / s2.bucketRateBytesPerSec_
  (max peakSleep (s2.averageThrottler now), s2.printPeriodicLogs now)

/-- Modelled from the spec: `limit` (§4.4); the body is not in `src/`. It adds
the caller's delta to the cumulative total, invokes `calculateSleep`, and (in
the C++) sleeps for the returned duration; the sleep itself is external and
not part of the state. -/
def Throttler.limit (s : Throttler) (deltaProgress now : ℚ) : ℚ × Throttler :=
  s.calculateSleep (s.bytesProgress_ + deltaProgress) now

/-- Modelled from the spec: `registerTransfer` (§4.6); the body is not in
`src/`. Increment `refCount_`; on the 0→1 transition also reset the
progress/bucket state and the timestamps to `now`. -/
def Throttler.registerTransfer (s : Throttler) (now : ℚ) : Throttler :=
  if s.refCount_ = 0 then
    { s with refCount_ := s.refCount_ + 1
             startTime_ := now
             bytesProgress_ := 0
             lastFillTime_ := now
             bytesTokenBucket_ := s.bytesTokenBucketLimit_
             instantProgress_ := 0
             lastLogTime_ := now }
  else { s with refCount_ := s.refCount_ + 1 }

/-- Modelled from the spec: `deRegisterTransfer` (§4.6); the body is not in
`src/`. Decrements `refCount_`, silently floored at 0 (decrementing past 0 is
a no-op). -/
def Throttler.deRegisterTransfer (s : Throttler) : Throttler :=
  if 0 < s.refCount_ then { s with refCount_ := s.refCount_ - 1 } else s

/-- Modelled from the spec: `setThrottlerRates` (§4.6); the body is not in
`src/`. Updates the three rate fields; the current token count is not rescaled
beyond clamping it to the (possibly new) limit. -/
def Throttler.setThrottlerRates (s : Throttler)
    (avgRateBytesPerSec bucketRateBytesPerSec bytesTokenBucketLimit : ℚ) : Throttler :=
  { s with avgRateBytesPerSec_ := avgRateBytesPerSec
           bucketRateBytesPerSec_ := bucketRateBytesPerSec
           bytesTokenBucketLimit_ := bytesTokenBucketLimit
           bytesTokenBucket_ := min s.bytesTokenBucket_ bytesTokenBucketLimit }

/-- Modelled from the spec: the accessor `getThrottlerLogTimeMillis`
(`src/Throttler.h` line 98); the body is not in `src/`. -/
def Throttler.getThrottlerLogTimeMillis (s : Throttler) : ℤ :=
  s.throttlerLogTimeMillis_

/-- Modelled from the spec: the setter `setThrottlerLogTimeMillis`
(`src/Throttler.h` line 101); the body is not in `src/`. -/
def Throttler.setThrottlerLogTimeMillis (s : Throttler) (throttlerLogTimeMillis : ℤ) :
    Throttler :=
  { s with throttlerLogTimeMillis_ := throttlerLogTimeMillis }

/-- One invocation of a public `Throttler` operation, with the arguments the
caller supplies (timestamps stand for the `Clock::now()` reads). -/
inductive Op where
  | register (now : ℚ)
  | deregister
  | calcSleep (bytesTotalProgress now : ℚ)
  | limitCall (deltaProgress now : ℚ)
  | setRates (avgRateBytesPerSec bucketRateBytesPerSec bytesTokenBucketLimit : ℚ)
  | setLogTime (throttlerLogTimeMillis : ℤ)
  deriving DecidableEq, Repr

/-- Effect of one public operation on the shared state (sleep results are
dropped; only the state evolution matters for the invariants). -/
def applyOp (s : Throttler) : Op → Throttler
  | Op.register now => s.registerTransfer now
  | Op.deregister => s.deRegisterTransfer
  | Op.calcSleep p now => (s.calculateSleep p now).2
  | Op.limitCall d now => (s.limit d now).2
  | Op.setRates a r l => s.setThrottlerRates a r l
  | Op.setLogTime m => s.setThrottlerLogTimeMillis m

/-- State after running a sequence of public operations. -/
def run (s : Throttler) : List Op → Throttler
  | [] => s
  | op :: ops => run (applyOp s op) ops

/-- Caller contract for one operation: cumulative progress passed to
`calculateSleep` never decreases, and deltas passed to `limit` are
non-negative (§3: `bytesProgress` is monotonically non-decreasing while
active). All other operations are unconstrained. -/
def stepOK (s : Throttler) : Op → Prop
  | Op.calcSleep p _ => s.bytesProgress_ ≤ p
  | Op.limitCall d _ => 0 ≤ d
  | _ => True

/-- Caller contract along a whole sequence of operations. -/
def runOK (s : Throttler) : List Op → Prop
  | [] => True
  | op :: ops => stepOK s op ∧ runOK (applyOp s op) ops

/-- Operations that are `limit` or `calculateSleep` calls. -/
def isLimitOrCalc : Op → Prop
  | Op.calcSleep _ _ => True
  | Op.limitCall _ _ => True
  | _ => False

/-! ### Projection lemmas for the periodic logger and `calculateSleep` -/

@[simp] theorem printPeriodicLogs_refCount (s : Throttler) (now : ℚ) :
    (s.printPeriodicLogs now).refCount_ = s.refCount_ := by
  unfold Throttler.printPeriodicLogs; split <;> rfl

@[simp] theorem printPeriodicLogs_bytesTokenBucket (s : Throttler) (now : ℚ) :
    (s.printPeriodicLogs now).bytesTokenBucket_ = s.bytesTokenBucket_ := by
  unfold Throttler.printPeriodicLogs; split <;> rfl

@[simp] theorem printPeriodicLogs_bytesTokenBucketLimit (s : Throttler) (now : ℚ) :
    (s.printPeriodicLogs now).bytesTokenBucketLimit_ = s.bytesTokenBucketLimit_ := by
  unfold Throttler.printPeriodicLogs; split <;> rfl

@[simp] theorem printPeriodicLogs_bytesProgress (s : Throttler) (now : ℚ) :
    (s.printPeriodicLogs now).bytesProgress_ = s.bytesProgress_ := by
  unfold Throttler.printPeriodicLogs; split <;> rfl

@[simp] theorem printPeriodicLogs_startTime (s : Throttler) (now : ℚ) :
    (s.printPeriodicLogs now).startTime_ = s.startTime_ := by
  unfold Throttler.printPeriodicLogs; split <;> rfl

@[simp] theorem printPeriodicLogs_avgRate (s : Throttler) (now : ℚ) :
    (s.printPeriodicLogs now).avgRateBytesPerSec_ = s.avgRateBytesPerSec_ := by
  unfold Throttler.printPeriodicLogs; split <;> rfl

@[simp] theorem printPeriodicLogs_bucketRate (s : Throttler) (now : ℚ) :
    (s.printPeriodicLogs now).bucketRateBytesPerSec_ = s.bucketRateBytesPerSec_ := by
  unfold Throttler.printPeriodicLogs; split <;> rfl

@[simp] theorem printPeriodicLogs_logTimeMillis (s : Throttler) (now : ℚ) :
    (s.printPeriodicLogs now).throttlerLogTimeMillis_ = s.throttlerLogTimeMillis_ := by
  unfold Throttler.printPeriodicLogs; split <;> rfl

@[simp] theorem calculateSleep_state_refCount (s : Throttler) (p now : ℚ) :
    (s.calculateSleep p now).2.refCount_ = s.refCount_ := by
  simp [Throttler.calculateSleep]

@[simp] theorem calculateSleep_state_bytesTokenBucketLimit (s : Throttler) (p now : ℚ) :
    (s.calculateSleep p now).2.bytesTokenBucketLimit_ = s.bytesTokenBucketLimit_ := by
  simp [Throttler.calculateSleep]

@[simp] theorem calculateSleep_state_logTimeMillis (s : Throttler) (p now : ℚ) :
    (s.calculateSleep p now).2.throttlerLogTimeMillis_ = s.throttlerLogTimeMillis_ := by
  simp [Throttler.calculateSleep]

theorem calculateSleep_state_bytesTokenBucket (s : Throttler) (p now : ℚ) :
    (s.calculateSleep p now).2.bytesTokenBucket_ =
      refillBucket s.bytesTokenBucket_ s.bucketRateBytesPerSec_ s.bytesTokenBucketLimit_
        (max 0 (now - s.lastFillTime_)) - (p - s.bytesProgress_) := by
  simp [Throttler.calculateSleep]

/-! ### C1: `calculateSleep` is the max of the peak term and the average term -/

/-- C1: for every call to `calculateSleep(bytesTotalProgress, now)`, the
returned sleep equals the maximum of the peak-imposed sleep — 0 when the token
bucket is non-negative after consuming the delta progress, and
`|tokens after consumption| / bucketRateBytesPerSec` when it is negative —
and the average-regulator sleep returned by `averageThrottler(now)` on the
updated progress. -/
theorem calculateSleep_eq_max_peak_average (s : Throttler) (bytesTotalProgress now : ℚ) :
    (s.calculateSleep bytesTotalProgress now).1 =
      max
        (if 0 ≤ refillBucket s.bytesTokenBucket_ s.bucketRateBytesPerSec_
              s.bytesTokenBucketLimit_ (max 0 (now - s.lastFillTime_)) -
              (bytesTotalProgress - s.bytesProgress_)
         then 0
         else
           |refillBucket s.bytesTokenBucket_ s.bucketRateBytesPerSec_
              s.bytesTokenBucketLimit_ (max 0 (now - s.lastFillTime_)) -
              (bytesTotalProgress - s.bytesProgress_)| / s.bucketRateBytesPerSec_)
        (Throttler.averageThrottler { s with bytesProgress_ := bytesTotalProgress } now) := by
  by_cases h : 0 ≤ refillBucket s.bytesTokenBucket_ s.bucketRateBytesPerSec_
      s.bytesTokenBucketLimit_ (max 0 (now - s.lastFillTime_)) -
      (bytesTotalProgress - s.bytesProgress_)
  · simp [Throttler.calculateSleep, Throttler.averageThrottler, h]
  · simp [Throttler.calculateSleep, Throttler.averageThrottler, h,
      abs_of_neg (not_le.mp h)]

/-! ### C2: the average-rate regulator -/

/-- Concrete state refuting the unclamped-elapsed formula: the transfer
started at t = 1 s and one byte of progress is recorded; the regulator is
queried at t = 0 (the clock went backwards). -/
def negElapsedState : Throttler :=
  { startTime_ := 1
    lastLogTime_ := 0
    instantProgress_ := 0
    bytesProgress_ := 1
    lastFillTime_ := 0
    bytesTokenBucket_ := 25
    refCount_ := 1
    avgRateBytesPerSec_ := 100
    bytesTokenBucketLimit_ := 60
    bucketRateBytesPerSec_ := 120
    throttlerLogTimeMillis_ := 0
    emitCount := 0 }

/-- C2, counterexample: with `elapsed = now - startTime` taken literally
(unclamped), the claimed formula fails when the clock runs backwards. Here
`bytesProgress = 1 > expectedProgress = 100 × (0 - 1) = -100`, so the claim
predicts `(1 - (-100)) / 100 = 101/100`, but `averageThrottler` clamps the
negative elapsed duration to 0 and returns `1/100`. -/
theorem averageThrottler_ne_unclamped_formula :
    negElapsedState.avgRateBytesPerSec_ *
        ((0 : ℚ) - negElapsedState.startTime_) < negElapsedState.bytesProgress_ ∧
    negElapsedState.averageThrottler 0 ≠
      (negElapsedState.bytesProgress_ -
        negElapsedState.avgRateBytesPerSec_ * ((0 : ℚ) - negElapsedState.startTime_)) /
        negElapsedState.avgRateBytesPerSec_ := by
  constructor
  · norm_num [negElapsedState]
  · norm_num [Throttler.averageThrottler, negElapsedState]

/-- C2 as amended: `averageThrottler(now)` returns 0 when
`avgRateBytesPerSec ≤ 0`; otherwise, with `elapsed = max 0 (now - startTime)`
(a negative elapsed duration is clamped to 0) and
`expectedProgress = avgRateBytesPerSec × elapsed`, it returns 0 when
`bytesProgress ≤ expectedProgress` and
`(bytesProgress - expectedProgress) / avgRateBytesPerSec` otherwise. -/
theorem averageThrottler_spec (s : Throttler) (now : ℚ) :
    (s.avgRateBytesPerSec_ ≤ 0 → s.averageThrottler now = 0) ∧
    (0 < s.avgRateBytesPerSec_ →
      (s.bytesProgress_ ≤ s.avgRateBytesPerSec_ * max 0 (now - s.startTime_) →
        s.averageThrottler now = 0) ∧
      (s.avgRateBytesPerSec_ * max 0 (now - s.startTime_) < s.bytesProgress_ →
        s.averageThrottler now =
          (s.bytesProgress_ - s.avgRateBytesPerSec_ * max 0 (now - s.startTime_)) /
            s.avgRateBytesPerSec_)) := by
  refine ⟨fun h => by simp [Throttler.averageThrottler, h],
    fun h => ⟨fun h2 => ?_, fun h2 => ?_⟩⟩
  · simp [Throttler.averageThrottler, not_le.mpr h, h2]
  · simp [Throttler.averageThrottler, not_le.mpr h, not_le.mpr h2]

/-- State matching the spec's worked example: average rate 100 B/s, start at
t = 0, 300 bytes of progress recorded. -/
def aheadState : Throttler := { negElapsedState with startTime_ := 0, bytesProgress_ := 300 }

/-- Witness for `averageThrottler_spec`: at `now = 1` (elapsed 1 s, expected
progress 100) the regulator returns `(300 - 100) / 100 = 2` seconds. -/
theorem averageThrottler_spec_witness :
    aheadState.averageThrottler 1 =
      (aheadState.bytesProgress_ -
        aheadState.avgRateBytesPerSec_ * max 0 ((1 : ℚ) - aheadState.startTime_)) /
        aheadState.avgRateBytesPerSec_ ∧
    aheadState.averageThrottler 1 = 2 := by
  have h := ((averageThrottler_spec aheadState 1).2
    (by norm_num [aheadState, negElapsedState])).2
    (by norm_num [aheadState, negElapsedState])
  exact ⟨h, by rw [h]; norm_num [aheadState, negElapsedState]⟩

/-! ### C3: auto-configuration of the bucket limit -/

/-- C3: for inputs with `avgRate > 0`, a peak rate below the average (0, the
unset value, included) and `bucketLimit ≤ 0`, `configureOptions` raises the
peak rate to at least the average and derives the bucket limit as twice the
bytes sent in a quarter second at the resulting peak rate. -/
theorem configureOptions_auto_bucket (avgRateBytesPerSec peakRateBytesPerSec bucketLimitBytes : ℚ)
    (ha : 0 < avgRateBytesPerSec) (hp : peakRateBytesPerSec < avgRateBytesPerSec)
    (hl : bucketLimitBytes ≤ 0) :
    avgRateBytesPerSec ≤
      (configureOptions avgRateBytesPerSec peakRateBytesPerSec bucketLimitBytes).2.1 ∧
    (configureOptions avgRateBytesPerSec peakRateBytesPerSec bucketLimitBytes).2.2 =
      2 * (configureOptions avgRateBytesPerSec peakRateBytesPerSec bucketLimitBytes).2.1 *
        (1 / 4) := by
  have h0 : ¬ avgRateBytesPerSec ≤ 0 := not_le.mpr ha
  simp only [configureOptions, h0, if_false, if_pos hp, if_pos hl]
  exact ⟨by nlinarith, trivial⟩

/-- Witness for `configureOptions_auto_bucket` at the spec's concrete input
`(100, 0, 0)`: the peak becomes at least 100 and the bucket limit twice a
quarter second at peak. -/
theorem configureOptions_auto_bucket_witness :
    (100 : ℚ) ≤ (configureOptions 100 0 0).2.1 ∧
    (configureOptions 100 0 0).2.2 = 2 * (configureOptions 100 0 0).2.1 * (1 / 4) :=
  configureOptions_auto_bucket 100 0 0 (by norm_num) (by norm_num) (by norm_num)

/-! ### C4: `registerTransfer` -/

/-- C4: `registerTransfer` increments `refCount` by exactly 1; on the 0→1
transition it also sets `startTime = now`, `bytesProgress = 0`,
`lastFillTime = now`, `bytesTokenBucket = bytesTokenBucketLimit`,
`instantProgress = 0` and `lastLogTime = now`; when `refCount` was already
≥ 1 it leaves all of that state unchanged. -/
theorem registerTransfer_spec (s : Throttler) (now : ℚ) :
    (s.registerTransfer now).refCount_ = s.refCount_ + 1 ∧
    (s.refCount_ = 0 →
      (s.registerTransfer now).startTime_ = now ∧
      (s.registerTransfer now).bytesProgress_ = 0 ∧
      (s.registerTransfer now).lastFillTime_ = now ∧
      (s.registerTransfer now).bytesTokenBucket_ = s.bytesTokenBucketLimit_ ∧
      (s.registerTransfer now).instantProgress_ = 0 ∧
      (s.registerTransfer now).lastLogTime_ = now) ∧
    (1 ≤ s.refCount_ →
      (s.registerTransfer now).startTime_ = s.startTime_ ∧
      (s.registerTransfer now).bytesProgress_ = s.bytesProgress_ ∧
      (s.registerTransfer now).lastFillTime_ = s.lastFillTime_ ∧
      (s.registerTransfer now).bytesTokenBucket_ = s.bytesTokenBucket_ ∧
      (s.registerTransfer now).instantProgress_ = s.instantProgress_ ∧
      (s.registerTransfer now).lastLogTime_ = s.lastLogTime_) := by
  by_cases h : s.refCount_ = 0
  · simp [Throttler.registerTransfer, h]
  · simp [Throttler.registerTransfer, h]

/-- Witness for `registerTransfer_spec`: registering on a freshly constructed
throttler (refcount 0) at t = 5 yields refcount 1 and start time 5. -/
theorem registerTransfer_spec_witness :
    ((Throttler.init 100 120 60 0 0).registerTransfer 5).refCount_ =
      (Throttler.init 100 120 60 0 0).refCount_ + 1 ∧
    ((Throttler.init 100 120 60 0 0).registerTransfer 5).startTime_ = 5 :=
  ⟨(registerTransfer_spec (Throttler.init 100 120 60 0 0) 5).1,
    ((registerTransfer_spec (Throttler.init 100 120 60 0 0) 5).2.1 (by decide)).1⟩

/-! ### C5: `deRegisterTransfer` and the refcount floor -/

@[simp] theorem registerTransfer_refCount (s : Throttler) (now : ℚ) :
    (s.registerTransfer now).refCount_ = s.refCount_ + 1 := by
  unfold Throttler.registerTransfer; split <;> rfl

theorem applyOp_refCount_nonneg (s : Throttler) (op : Op) (h : 0 ≤ s.refCount_) :
    0 ≤ (applyOp s op).refCount_ := by
  cases op with
  | register now =>
      simp only [applyOp, registerTransfer_refCount]
      omega
  | deregister =>
      simp only [applyOp, Throttler.deRegisterTransfer]
      split
      · simp
        omega
      · exact h
  | calcSleep p now =>
      simpa only [applyOp, calculateSleep_state_refCount] using h
  | limitCall d now =>
      simpa only [applyOp, Throttler.limit, calculateSleep_state_refCount] using h
  | setRates a r l =>
      simpa [applyOp, Throttler.setThrottlerRates] using h
  | setLogTime m =>
      simpa [applyOp, Throttler.setThrottlerLogTimeMillis] using h

theorem run_refCount_nonneg (ops : List Op) :
    ∀ s : Throttler, 0 ≤ s.refCount_ → 0 ≤ (run s ops).refCount_ := by
  induction ops with
  | nil => intro s h; exact h
  | cons op ops ih => intro s h; exact ih _ (applyOp_refCount_nonneg s op h)

/-- C5: `deRegisterTransfer` decrements `refCount` by 1 when it is positive;
when it is already 0 the call is a no-op leaving the entire state unchanged;
and along any sequence of public operations started with a non-negative
refcount, the refcount never becomes negative. -/
theorem deRegisterTransfer_spec (s : Throttler) (ops : List Op) :
    (0 < s.refCount_ → s.deRegisterTransfer = { s with refCount_ := s.refCount_ - 1 }) ∧
    (s.refCount_ = 0 → s.deRegisterTransfer = s) ∧
    (0 ≤ s.refCount_ → 0 ≤ (run s ops).refCount_) := by
  refine ⟨fun h => ?_, fun h => ?_, fun h => run_refCount_nonneg ops s h⟩
  · simp [Throttler.deRegisterTransfer, h]
  · simp [Throttler.deRegisterTransfer, h]

/-- Witness for `deRegisterTransfer_spec`: deregistering a freshly constructed
throttler (refcount 0) changes nothing, and registering once then
deregistering twice leaves a non-negative refcount. -/
theorem deRegisterTransfer_spec_witness :
    (Throttler.init 100 120 60 0 0).deRegisterTransfer = Throttler.init 100 120 60 0 0 ∧
    0 ≤ (run (Throttler.init 100 120 60 0 0)
      [Op.register 2, Op.deregister, Op.deregister]).refCount_ :=
  ⟨(deRegisterTransfer_spec (Throttler.init 100 120 60 0 0) []).2.1 (by decide),
    (deRegisterTransfer_spec (Throttler.init 100 120 60 0 0)
      [Op.register 2, Op.deregister, Op.deregister]).2.2 (by decide)⟩

/-! ### C6: bounds on the stored token count -/

/-- State reached by registering one caller on a freshly constructed throttler
(bucket limit 60, hence a full bucket of 60 tokens) and then reporting 100
bytes of cumulative progress at the same instant. -/
def overdrawnState : Throttler :=
  (((Throttler.init 100 120 60 0 0).registerTransfer 0).calculateSleep 100 0).2

/-- C6, counterexample: the lower bound `0 ≤ bytesTokenBucket` does not hold
in every reachable state — consuming 100 bytes from a full 60-token bucket
leaves the stored count at -40 on return from `calculateSleep` (§4.3 step 3:
the count may go negative; no floor is enforced). -/
theorem bytesTokenBucket_can_go_negative : overdrawnState.bytesTokenBucket_ < 0 := by
  norm_num [overdrawnState, Throttler.init, Throttler.registerTransfer,
    Throttler.calculateSleep, Throttler.printPeriodicLogs, refillBucket]

theorem applyOp_bucket_le_limit (s : Throttler) (op : Op)
    (h : s.bytesTokenBucket_ ≤ s.bytesTokenBucketLimit_) (hop : stepOK s op) :
    (applyOp s op).bytesTokenBucket_ ≤ (applyOp s op).bytesTokenBucketLimit_ := by
  cases op with
  | register now =>
      simp only [applyOp, Throttler.registerTransfer]
      split
      · simp
      · simpa using h
  | deregister =>
      simp only [applyOp, Throttler.deRegisterTransfer]
      split
      · simpa using h
      · exact h
  | calcSleep p now =>
      have hd : 0 ≤ p - s.bytesProgress_ := sub_nonneg.mpr hop
      have hmin : refillBucket s.bytesTokenBucket_ s.bucketRateBytesPerSec_
          s.bytesTokenBucketLimit_ (max 0 (now - s.lastFillTime_)) ≤
          s.bytesTokenBucketLimit_ := min_le_right _ _
      simp only [applyOp, calculateSleep_state_bytesTokenBucket,
        calculateSleep_state_bytesTokenBucketLimit]
      linarith
  | limitCall d now =>
      have hd : (0 : ℚ) ≤ d := hop
      have hmin : refillBucket s.bytesTokenBucket_ s.bucketRateBytesPerSec_
          s.bytesTokenBucketLimit_ (max 0 (now - s.lastFillTime_)) ≤
          s.bytesTokenBucketLimit_ := min_le_right _ _
      simp only [applyOp, Throttler.limit, calculateSleep_state_bytesTokenBucket,
        calculateSleep_state_bytesTokenBucketLimit]
      linarith
  | setRates a r l =>
      simp [applyOp, Throttler.setThrottlerRates, min_le_right]
  | setLogTime m =>
      simpa [applyOp, Throttler.setThrottlerLogTimeMillis] using h

theorem run_bucket_le_limit (ops : List Op) :
    ∀ s : Throttler, s.bytesTokenBucket_ ≤ s.bytesTokenBucketLimit_ → runOK s ops →
    (run s ops).bytesTokenBucket_ ≤ (run s ops).bytesTokenBucketLimit_ := by
  induction ops with
  | nil => intro s h _; exact h
  | cons op ops ih =>
      intro s h hok
      exact ih _ (applyOp_bucket_le_limit s op h hok.1) hok.2

/-- C6 as amended: in every state reachable from a freshly constructed
throttler by public operations whose `calculateSleep`/`limit` calls respect
the monotone-progress caller contract, the upper bound
`bytesTokenBucket ≤ bytesTokenBucketLimit` holds on return of each operation;
the lower bound `0 ≤ bytesTokenBucket` does not hold in general (the count
may go negative to record a deficit). -/
theorem reachable_bucket_le_limit (avgRateBytesPerSec peakRateBytesPerSec bucketLimitBytes : ℚ)
    (throttlerLogTimeMillis : ℤ) (t0 : ℚ) (ops : List Op)
    (hops : runOK (Throttler.init avgRateBytesPerSec peakRateBytesPerSec bucketLimitBytes
      throttlerLogTimeMillis t0) ops) :
    (run (Throttler.init avgRateBytesPerSec peakRateBytesPerSec bucketLimitBytes
        throttlerLogTimeMillis t0) ops).bytesTokenBucket_ ≤
      (run (Throttler.init avgRateBytesPerSec peakRateBytesPerSec bucketLimitBytes
        throttlerLogTimeMillis t0) ops).bytesTokenBucketLimit_ :=
  run_bucket_le_limit ops _ le_rfl hops

/-- Witness for `reachable_bucket_le_limit`: registering and then reporting 50
bytes at t = 1 keeps the token count below the 60-byte limit. -/
theorem reachable_bucket_le_limit_witness :
    (run (Throttler.init 100 120 60 0 0)
        [Op.register 0, Op.calcSleep 50 1]).bytesTokenBucket_ ≤
      (run (Throttler.init 100 120 60 0 0)
        [Op.register 0, Op.calcSleep 50 1]).bytesTokenBucketLimit_ :=
  reachable_bucket_le_limit 100 120 60 0 0 [Op.register 0, Op.calcSleep 50 1]
    (by simp [runOK, stepOK, applyOp, Throttler.registerTransfer, Throttler.init])

/-! ### C7: the refill step is capped at the bucket limit -/

/-- C7: immediately after the refill step inside `calculateSleep` — which adds
`bucketRateBytesPerSec × elapsedSinceFill` tokens before any consumption —
the token count is at most `bytesTokenBucketLimit`; the second conjunct
records that the count `calculateSleep` stores is exactly that capped refill
value minus the consumed delta. -/
theorem refill_capped_at_limit (s : Throttler) (bytesTotalProgress now : ℚ) :
    refillBucket s.bytesTokenBucket_ s.bucketRateBytesPerSec_ s.bytesTokenBucketLimit_
        (max 0 (now - s.lastFillTime_)) ≤ s.bytesTokenBucketLimit_ ∧
    (s.calculateSleep bytesTotalProgress now).2.bytesTokenBucket_ =
      refillBucket s.bytesTokenBucket_ s.bucketRateBytesPerSec_ s.bytesTokenBucketLimit_
        (max 0 (now - s.lastFillTime_)) - (bytesTotalProgress - s.bytesProgress_) :=
  ⟨min_le_right _ _, calculateSleep_state_bytesTokenBucket s bytesTotalProgress now⟩

/-! ### C8: periodic-logging cadence -/

/-- C8: as a side effect of a `calculateSleep` call, when
`throttlerLogTimeMillis > 0` and at least that many milliseconds have passed
since `lastLogTime`, exactly one diagnostic observation is emitted, then
`instantProgress` is reset to 0 and `lastLogTime` to `now`; otherwise nothing
is emitted, `lastLogTime` is untouched and `instantProgress` keeps
accumulating the delta. -/
theorem calculateSleep_logging_cadence (s : Throttler) (bytesTotalProgress now : ℚ) :
    (0 < s.throttlerLogTimeMillis_ ∧
        (s.throttlerLogTimeMillis_ : ℚ) ≤ (now - s.lastLogTime_) * 1000 →
      (s.calculateSleep bytesTotalProgress now).2.emitCount = s.emitCount + 1 ∧
      (s.calculateSleep bytesTotalProgress now).2.instantProgress_ = 0 ∧
      (s.calculateSleep bytesTotalProgress now).2.lastLogTime_ = now) ∧
    (¬ (0 < s.throttlerLogTimeMillis_ ∧
        (s.throttlerLogTimeMillis_ : ℚ) ≤ (now - s.lastLogTime_) * 1000) →
      (s.calculateSleep bytesTotalProgress now).2.emitCount = s.emitCount ∧
      (s.calculateSleep bytesTotalProgress now).2.instantProgress_ =
        s.instantProgress_ + (bytesTotalProgress - s.bytesProgress_) ∧
      (s.calculateSleep bytesTotalProgress now).2.lastLogTime_ = s.lastLogTime_) := by
  constructor <;> intro h <;>
    simp [Throttler.calculateSleep, Throttler.printPeriodicLogs, h]

/-- First call of the logging-cadence scenario: interval 1000 ms, registration
and a first `calculateSleep` carrying 10 bytes, both at t = 0 (no emission:
0 ms have elapsed). -/
def warmLogState : Throttler :=
  (((Throttler.init 100 120 60 1000 0).registerTransfer 0).calculateSleep 10 0).2

/-- Witness for `calculateSleep_logging_cadence`: the first call (baked into
`warmLogState`) emitted nothing; the second call, 1500 ms later and carrying
progress, emits exactly one observation and resets the instant progress —
one emission across the two calls. -/
theorem calculateSleep_logging_cadence_witness :
    warmLogState.emitCount = 0 ∧
    (warmLogState.calculateSleep 20 (3 / 2)).2.emitCount = warmLogState.emitCount + 1 ∧
    (warmLogState.calculateSleep 20 (3 / 2)).2.instantProgress_ = 0 ∧
    (warmLogState.calculateSleep 20 (3 / 2)).2.lastLogTime_ = 3 / 2 :=
  ⟨by norm_num [warmLogState, Throttler.init, Throttler.registerTransfer,
      Throttler.calculateSleep, Throttler.printPeriodicLogs],
    (calculateSleep_logging_cadence warmLogState 20 (3 / 2)).1
      (by norm_num [warmLogState, Throttler.init, Throttler.registerTransfer,
        Throttler.calculateSleep, Throttler.printPeriodicLogs])⟩

/-! ### C9: the returned sleep is never negative -/

theorem averageThrottler_nonneg (s : Throttler) (now : ℚ) :
    0 ≤ s.averageThrottler now := by
  by_cases h : s.avgRateBytesPerSec_ ≤ 0
  · simp [Throttler.averageThrottler, h]
  · by_cases h2 : s.bytesProgress_ ≤ s.avgRateBytesPerSec_ * max 0 (now - s.startTime_)
    · simp [Throttler.averageThrottler, h, h2]
    · simp only [Throttler.averageThrottler, h, h2, if_false]
      exact div_nonneg (by linarith [not_le.mp h2]) (not_le.mp h).le

/-- C9: for every state and every timestamp `now` — one earlier than
`startTime` or `lastFillTime` (a non-monotonic clock) and zero or degenerate
rate configurations included — `calculateSleep` returns a non-negative sleep:
negative elapsed durations are clamped to zero inside the computation and a
negative value is never returned. -/
theorem calculateSleep_nonneg (s : Throttler) (bytesTotalProgress now : ℚ) :
    0 ≤ (s.calculateSleep bytesTotalProgress now).1 := by
  unfold Throttler.calculateSleep
  exact le_trans (averageThrottler_nonneg _ _) (le_max_right _ _)

/-! ### C10: default construction never logs -/

theorem applyOp_log_disabled (s : Throttler) (op : Op)
    (hlog : s.throttlerLogTimeMillis_ = 0) (hop : isLimitOrCalc op) :
    (applyOp s op).throttlerLogTimeMillis_ = 0 ∧ (applyOp s op).emitCount = s.emitCount := by
  cases op with
  | calcSleep p now =>
      refine ⟨by simpa only [applyOp, calculateSleep_state_logTimeMillis] using hlog, ?_⟩
      simp [applyOp, Throttler.calculateSleep, Throttler.printPeriodicLogs, hlog]
  | limitCall d now =>
      refine ⟨by simpa only [applyOp, Throttler.limit,
        calculateSleep_state_logTimeMillis] using hlog, ?_⟩
      simp [applyOp, Throttler.limit, Throttler.calculateSleep,
        Throttler.printPeriodicLogs, hlog]
  | register now => exact hop.elim
  | deregister => exact hop.elim
  | setRates a r l => exact hop.elim
  | setLogTime m => exact hop.elim

theorem run_log_disabled (ops : List Op) :
    ∀ s : Throttler, s.throttlerLogTimeMillis_ = 0 → (∀ op ∈ ops, isLimitOrCalc op) →
    (run s ops).emitCount = s.emitCount := by
  induction ops with
  | nil => intro s _ _; rfl
  | cons op ops ih =>
      intro s hlog hall
      have h := applyOp_log_disabled s op hlog (hall op (List.mem_cons_self op ops))
      have h2 := ih (applyOp s op) h.1 (fun o ho => hall o (List.mem_cons_of_mem _ ho))
      calc (run s (op :: ops)).emitCount
          = (run (applyOp s op) ops).emitCount := rfl
        _ = (applyOp s op).emitCount := h2
        _ = s.emitCount := h.2

/-- C10: a throttler constructed without the `throttlerLogTimeMillis`
argument gets the constructor's default log interval 0
(`src/Throttler.h` line 52), so `getThrottlerLogTimeMillis` returns 0 and no
periodic diagnostic emission ever occurs along any sequence of
`limit`/`calculateSleep` calls (the interval can only change through
`setThrottlerLogTimeMillis`, which such a sequence does not contain). -/
theorem initDefault_never_logs (avgRateBytesPerSec peakRateBytesPerSec bucketLimitBytes t0 : ℚ)
    (ops : List Op) (hops : ∀ op ∈ ops, isLimitOrCalc op) :
    (Throttler.initDefault avgRateBytesPerSec peakRateBytesPerSec
        bucketLimitBytes t0).getThrottlerLogTimeMillis = 0 ∧
    (run (Throttler.initDefault avgRateBytesPerSec peakRateBytesPerSec
        bucketLimitBytes t0) ops).emitCount = 0 :=
  ⟨rfl, (run_log_disabled ops _ rfl hops).trans rfl⟩

/-- Witness for `initDefault_never_logs`: a `limit` call then a
`calculateSleep` call on a default-constructed throttler emit nothing. -/
theorem initDefault_never_logs_witness :
    (Throttler.initDefault 100 120 60 0).getThrottlerLogTimeMillis = 0 ∧
    (run (Throttler.initDefault 100 120 60 0)
      [Op.limitCall 10 1, Op.calcSleep 50 2]).emitCount = 0 :=
  initDefault_never_logs 100 120 60 0 [Op.limitCall 10 1, Op.calcSleep 50 2]
    (by intro op hop; fin_cases hop <;> trivial)
